import Mathlib

/-!
Shallow embedding of the llm-proxy repository (Go) for specification
checking.

Sources embedded:
- `pkg/session/session.go` — the `Session` record and store interface.
- `pkg/session/memory.go` — `MemoryStore` (a Go `map[string]*Session`
  behind a mutex, modelled as an association list with at most one entry
  per key; the mutex serialises operations, so the sequential functions
  below are the per-operation semantics).
- `pkg/session/usage.go` — `Usage` and `UsageTracker` (same modelling).
- `pkg/proxy/provider.go` — provider constants and `DefaultUpstream`.
- `pkg/proxy/metering.go` — `usageBlock`, `extractUsage`,
  `extractUsageFromSSE`.
- `pkg/proxy/proxy.go` — `extractToken` and the error-handling spine of
  `Proxy.ServeHTTP`, plus its usage-metering tail.
- `pkg/server/server.go` — `handleRevokeSession`, `handleListSessions`.

Go `int64` counters are modelled as `Int` (the counters accumulate LLM
token counts, far below overflow). Go byte strings are modelled as Lean
`String`; the inputs exercised here are ASCII, where Go's byte-wise
`strings` functions and Lean's character-wise ones agree.
-/

namespace LLMProxy

instance {ε α : Type} [DecidableEq ε] [DecidableEq α] : DecidableEq (Except ε α) := fun x y =>
  match x, y with
  | .ok a, .ok b =>
    if h : a = b then .isTrue (by rw [h]) else .isFalse (by intro hc; cases hc; exact h rfl)
  | .ok _, .error _ => .isFalse (by intro hc; cases hc)
  | .error _, .ok _ => .isFalse (by intro hc; cases hc)
  | .error e, .error f =>
    if h : e = f then .isTrue (by rw [h]) else .isFalse (by intro hc; cases hc; exact h rfl)

/-! ### Go standard-library string helpers

The Go code uses `strings.HasPrefix`, `strings.TrimPrefix`,
`strings.TrimSpace` and `strings.Split`. These are embedded here at the
character-list level (Go works on UTF-8 bytes; on the ASCII data these
functions are applied to, per-character and per-byte agree). -/

/-- Predicate of `unicode.IsSpace` restricted to ASCII, the class
`strings.TrimSpace` trims: space, tab, newline, vertical tab, form feed, carriage return. -/
def goIsSpace (c : Char) : Bool :=
  c = ' ' || c = '\t' || c = '\n' || c = '\x0b' || c = '\x0c' || c = '\r'

/-- Embedding of `strings.HasPrefix`. -/
def goHasPrefix (s p : String) : Bool := p.data.isPrefixOf s.data

/-- Dropping the first `n` characters; `strings.TrimPrefix s p` is
`goDrop s p.length` once `goHasPrefix s p` holds. -/
def goDrop (s : String) (n : Nat) : String := ⟨s.data.drop n⟩

/-- Embedding of `strings.TrimSpace`. -/
def goTrimSpace (s : String) : String :=
  ⟨((s.data.dropWhile goIsSpace).reverse.dropWhile goIsSpace).reverse⟩

/-- Helper for `strings.Split(s, "\n")`: accumulate the current line
(in reverse) while walking the characters. -/
def splitLinesAux : List Char → List Char → List String
  | [], acc => [⟨acc.reverse⟩]
  | c :: cs, acc =>
    if c = '\n' then ⟨acc.reverse⟩ :: splitLinesAux cs []
    else splitLinesAux cs (c :: acc)

/-- Embedding of `strings.Split(s, "\n")`: every newline separates; empty parts are
kept; the empty string yields `[""]`. -/
def goSplitLines (s : String) : List String := splitLinesAux s.data []

/-- Structure `Session` from `pkg/session/session.go`. Empty string models an
absent optional field, as in Go. -/
structure Session where
  token : String
  provider : String
  apiKey : String
  upstreamURL : String
  sandboxID : String
deriving DecidableEq, Repr

/-- Structure `MemoryStore` from `pkg/session/memory.go`: a `map[string]*Session`
modelled as an association list with at most one entry per token. -/
abbrev MemoryStore := List (String × Session)

/-- Method `MemoryStore.Register`: insert-or-replace at `s.Token`; error on an
empty token (`"session token cannot be empty"`). -/
def registerSession (m : MemoryStore) (s : Session) : Except String MemoryStore :=
  if s.token = "" then .error "session token cannot be empty"
  else .ok (if m.any (fun p => p.1 == s.token)
            then m.map (fun p => if p.1 == s.token then (p.1, s) else p)
            else m ++ [(s.token, s)])

/-- Method `MemoryStore.Lookup`: map read; not-found is an error. -/
def lookupSession (m : MemoryStore) (token : String) : Except String Session :=
  match m.find? (fun p => p.1 == token) with
  | some p => .ok p.2
  | none => .error ("session not found: " ++ token)

/-- Method `MemoryStore.Revoke`: `delete(m.sessions, token)`; always returns
`nil` (modelled as always `.ok`). -/
def revokeSession (m : MemoryStore) (token : String) : Except String MemoryStore :=
  .ok (m.filter (fun p => p.1 != token))

/-- Method `MemoryStore.List`: snapshot of all session records (iteration order
of the Go map is unspecified; the association-list order stands in for
one such order). -/
def listSessions (m : MemoryStore) : List Session := m.map (·.2)

/-- Structure `Usage` from `pkg/session/usage.go`. -/
structure Usage where
  inputTokens : Int
  outputTokens : Int
  requests : Int
deriving DecidableEq, Repr

/-- The zero-valued `Usage` record (a fresh `Usage` in Go). -/
def Usage.zero : Usage := ⟨0, 0, 0⟩

/-- Structure `UsageTracker` from `pkg/session/usage.go`: `map[string]*Usage`
modelled as an association list with at most one entry per token. -/
abbrev UsageTracker := List (String × Usage)

/-- Method `UsageTracker.Record`: fetch (creating a zero record if absent),
then add both deltas and increment the request counter. -/
def recordUsage (u : UsageTracker) (token : String) (input output : Int) : UsageTracker :=
  if u.any (fun p => p.1 == token) then
    u.map (fun p =>
      if p.1 == token then
        (p.1, ⟨p.2.inputTokens + input, p.2.outputTokens + output, p.2.requests + 1⟩)
      else p)
  else u ++ [(token, ⟨0 + input, 0 + output, 0 + 1⟩)]

/-- Method `UsageTracker.Get`: value copy of the current counters, or a zero
record when the token has no entry. -/
def getUsage (u : UsageTracker) (token : String) : Usage :=
  match u.find? (fun p => p.1 == token) with
  | some p => p.2
  | none => Usage.zero

/-- Method `UsageTracker.Clear`: `delete(u.usage, token)`. -/
def clearUsage (u : UsageTracker) (token : String) : UsageTracker :=
  u.filter (fun p => p.1 != token)

/-! ### `pkg/proxy/provider.go` -/

def ProviderAnthropic : String := "anthropic"

def ProviderOpenAI : String := "openai"

def ProviderOllama : String := "ollama"

/-- Function `DefaultUpstream`: the provider's canonical base URL, `""` for
unknown providers. -/
def DefaultUpstream (provider : String) : String :=
  if provider = ProviderAnthropic then "https://api.anthropic.com"
  else if provider = ProviderOpenAI then "https://api.openai.com"
  else if provider = ProviderOllama then "http://localhost:11434"
  else ""

/-! ### `pkg/proxy/metering.go` — usage extraction -/

/-- Structure `usageBlock` from the metering code: the decoded nested `usage` JSON
object. Absent JSON fields decode to `0`, as with Go's `json.Unmarshal`
into `int64` fields. -/
structure usageBlock where
  inputTokens : Int
  outputTokens : Int
  promptTokens : Int
  completionTokens : Int
deriving DecidableEq, Repr

/-- The Go-side `json.Unmarshal` of a body into the usage envelope,
abstracted: `none` models a decode error (non-JSON input), `some u`
models a successful decode into the `usage` block. The byte-level JSON
decoder is Go standard-library code, not part of this repository, so it
is kept abstract; every definition below is parametric in it. -/
abbrev JsonDecoder := String → Option usageBlock

/-- Function `extractUsage`: decode the body's `usage` object, then select the
`(input, output)` pair by provider, exactly as the Go `switch`. -/
def extractUsage (decode : JsonDecoder) (body : String) (provider : String) : Int × Int :=
  match decode body with
  | none => (0, 0)
  | some u =>
    if provider = ProviderAnthropic then
      (u.inputTokens, u.outputTokens)
    else if provider = ProviderOpenAI then
      if 0 < u.promptTokens ∨ 0 < u.completionTokens then
        (u.promptTokens, u.completionTokens)
      else
        (u.inputTokens, u.outputTokens)
    else
      if 0 < u.inputTokens then
        (u.inputTokens, u.outputTokens)
      else
        (u.promptTokens, u.completionTokens)

/-- The `in > 0 || out > 0` test the metering code applies to an
extracted pair. -/
def nzPair (r : Int × Int) : Bool := decide (0 < r.1) || decide (0 < r.2)

/-- The loop body of `extractUsageFromSSE`, running over the lines in
scan order (the Go loop walks indices from the end, so the list passed
here is the reversed line list). -/
def sseScanRev (decode : JsonDecoder) (provider : String) : List String → Int × Int
  | [] => (0, 0)
  | l :: rest =>
    let line := goTrimSpace l
    if goHasPrefix line "data: " then
      let payload := goDrop line 6
      if payload = "[DONE]" then sseScanRev decode provider rest
      else
        let r := extractUsage decode payload provider
        if nzPair r then r else sseScanRev decode provider rest
    else sseScanRev decode provider rest

/-- Function `extractUsageFromSSE`: split the captured stream on newlines and
scan the lines from the end of the stream backward. -/
def extractUsageFromSSE (decode : JsonDecoder) (data : String) (provider : String) : Int × Int :=
  sseScanRev decode provider (goSplitLines data).reverse

/-! ### `pkg/proxy/proxy.go` — token extraction, pipeline, metering -/

/-- The inbound request fields `ServeHTTP` reads. A header modelled as
`""` is absent (Go's `Header.Get` returns `""` for a missing header). -/
structure Request where
  method : String
  path : String
  rawQuery : String
  authorization : String
  xApiKey : String
deriving DecidableEq, Repr

/-- Function `extractToken`: bearer-style `Authorization` header first, then the
`x-api-key` header; the value is returned as-is apart from the
`"Bearer "` scheme marker. -/
def extractToken (r : Request) : String :=
  if goHasPrefix r.authorization "Bearer " then goDrop r.authorization 7
  else if r.xApiKey ≠ "" then r.xApiKey
  else ""

/-- The externally-determined outcomes of the two effectful calls in
`ServeHTTP`: whether `http.NewRequestWithContext` errors, and whether
`httpClient.Do` errors at the transport level. -/
structure UpstreamEnv where
  buildFails : Bool
  transportFails : Bool
deriving DecidableEq, Repr

/-- A JSON error body as written by the handlers:
`\x7b"error":"<msg>"\x7d`. -/
def errBody (msg : String) : String := "\x7b\"error\":\"" ++ msg ++ "\"\x7d"

/-- Outcome of the `ServeHTTP` spine: an error response, or a dispatch
to the resolved upstream URL with the session whose credentials get
injected. -/
inductive Outcome where
  | errored (status : Nat) (body : String)
  | dispatched (upstreamURL : String) (sess : Session)
deriving DecidableEq, Repr

/-- The decision spine of `Proxy.ServeHTTP` (lines 43–99): token
extraction, session lookup, upstream resolution, request build, and the
upstream call, with each failure mapped to its error response. -/
def serveHTTP (store : MemoryStore) (env : UpstreamEnv) (r : Request) : Outcome :=
  let token := extractToken r
  if token = "" then
    .errored 401 (errBody "missing or invalid authorization header")
  else
    match lookupSession store token with
    | .error _ => .errored 401 (errBody "invalid session token")
    | .ok sess =>
      let upstream :=
        if sess.upstreamURL = "" then DefaultUpstream sess.provider else sess.upstreamURL
      if upstream = "" then .errored 400 (errBody "unknown provider")
      else
        let upstreamURL :=
          upstream ++ r.path ++ (if r.rawQuery ≠ "" then "?" ++ r.rawQuery else "")
        if env.buildFails then .errored 500 (errBody "internal error")
        else if env.transportFails then .errored 502 (errBody "upstream request failed")
        else .dispatched upstreamURL sess

/-- The usage-metering tail of `Proxy.ServeHTTP` (lines 101–121): after
the response body has been relayed, extract a usage pair from the
captured bytes (SSE extraction on the streaming path, whole-body
extraction otherwise) and record it only when a component is positive. -/
def meterResponse (decode : JsonDecoder) (streaming : Bool) (captured : String)
    (provider token : String) (tr : UsageTracker) : UsageTracker :=
  if streaming then
    let r := extractUsageFromSSE decode captured provider
    if nzPair r then recordUsage tr token r.1 r.2 else tr
  else
    let r := extractUsage decode captured provider
    if nzPair r then recordUsage tr token r.1 r.2 else tr

/-! ### `pkg/server/server.go` — registry API handlers -/

/-- An HTTP reply as produced by the registry handlers. -/
structure HttpReply where
  status : Nat
  body : String
deriving DecidableEq, Repr

/-- The process-wide mutable state the registry API and the proxy act
on: the session store, paired with the usage tracker. (The `Server`
struct itself holds only the store; the tracker lives in the proxy. The
pair makes the combined effect of a handler on both stores explicit.) -/
structure ServerState where
  store : MemoryStore
  usage : UsageTracker
deriving DecidableEq, Repr

/-- Handler `handleRevokeSession`: 400 on an empty path token, otherwise
`store.Revoke(token)` and a 200 acknowledgment. No other state is
touched. -/
def handleRevokeSession (st : ServerState) (token : String) : ServerState × HttpReply :=
  if token = "" then (st, ⟨400, errBody "token is required"⟩)
  else
    match revokeSession st.store token with
    | .error e => (st, ⟨500, errBody ("revoke failed: " ++ e)⟩)
    | .ok store' => ({ st with store := store' }, ⟨200, "\x7b\"status\":\"revoked\"\x7d"⟩)

/-- Structure `sessionInfo` from `server.go`: the list-response projection of a
session; the `APIKey` field is intentionally omitted. -/
structure sessionInfo where
  token : String
  provider : String
  sandboxID : String
  upstreamURL : String
deriving DecidableEq, Repr

/-- The projection applied to each listed session. -/
def sessionInfoOf (s : Session) : sessionInfo :=
  ⟨s.token, s.provider, s.sandboxID, s.upstreamURL⟩

/-- Handler `handleListSessions`: the JSON-encoded list response, as the list of
`sessionInfo` values it serialises. -/
def handleListSessions (store : MemoryStore) : List sessionInfo :=
  (listSessions store).map sessionInfoOf

/-! ### Specification-side definitions and sample data -/

/-- Specification-side description of one event frame: the payload of a
line whose trimmed form carries the `"data: "` prefix and is not the
`"[DONE]"` sentinel. Written from the spec's words ("splits the captured
stream into event-framed lines", "applies `extractUsage` to each event
payload") for comparison with the implementation scan. -/
def eventPayload (line : String) : Option String :=
  let t := goTrimSpace line
  if goHasPrefix t "data: " then
    let p := goDrop t 6
    if p = "[DONE]" then none else some p
  else none

/-- Specification-side description of the streamed-usage extractor,
written from the spec's words: scan the event payloads from the end of
the stream backward and return the first that yields a non-zero usage
pair, `(0, 0)` when none does. -/
def sseSpecScan (decode : JsonDecoder) (data : String) (provider : String) : Int × Int :=
  match ((goSplitLines data).reverse.filterMap eventPayload).find?
      (fun p => nzPair (extractUsage decode p provider)) with
  | some p => extractUsage decode p provider
  | none => (0, 0)

/-- Redaction of a store entry: the same entry with the real API key
blanked. Two stores with the same redaction differ at most in API
keys. -/
def scrubEntry (p : String × Session) : String × Session :=
  (p.1, { p.2 with apiKey := "" })

/-- A concrete registered session used by the concrete-input theorems. -/
def sampleSession : Session := ⟨"t1", "anthropic", "sk-real", "", "sb1"⟩

/-- The sample session with a different real API key and every other
field identical. -/
def sampleSessionAltKey : Session := ⟨"t1", "anthropic", "sk-other", "", "sb1"⟩

/-- A concrete decoder used by the concrete-input theorems: every body
decodes to a usage block with both field schemes populated. -/
def sampleDecoder : JsonDecoder := fun _ => some ⟨1, 2, 5, 7⟩

/-! ## Helper lemmas -/

/-- Looking up a key in a list from which that key was just filtered out
finds nothing. -/
lemma find?_filter_key_eq_none {β : Type} (m : List (String × β)) (t : String) :
    (m.filter (fun p => p.1 != t)).find? (fun p => p.1 == t) = none := by
  induction m with
  | nil => rfl
  | cons a l ih =>
    by_cases h : a.1 = t
    · simp [List.filter_cons, h, ih]
    · simp [List.filter_cons, List.find?_cons, h, ih]

/-- Filtering twice with the same predicate equals filtering once. -/
lemma filter_idem {α : Type} (p : α → Bool) (l : List α) :
    (l.filter p).filter p = l.filter p := by
  induction l with
  | nil => rfl
  | cons a l ih =>
    by_cases h : p a <;> simp [List.filter_cons, h, ih]

/-- Reading a token other than the head entry's key skips the head. -/
lemma getUsage_cons_ne {k t : String} (u : Usage) (tr : UsageTracker) (h : k ≠ t) :
    getUsage ((k, u) :: tr) t = getUsage tr t := by
  simp [getUsage, List.find?_cons, h]

/-- Recording under a token other than the head entry's key leaves the
head entry alone. -/
lemma recordUsage_cons_ne {k t : String} (u : Usage) (tr : UsageTracker) (i o : Int)
    (h : k ≠ t) :
    recordUsage ((k, u) :: tr) t i o = (k, u) :: recordUsage tr t i o := by
  by_cases ha : tr.any (fun p => p.1 == t) <;>
    simp [recordUsage, List.any_cons, h, ha]

/-- Effect of one `Record` call on the recorded token's counters: both
deltas are added and the request counter is incremented by one. -/
lemma getUsage_recordUsage_self (tr : UsageTracker) (t : String) (i o : Int) :
    getUsage (recordUsage tr t i o) t =
      ⟨(getUsage tr t).inputTokens + i, (getUsage tr t).outputTokens + o,
        (getUsage tr t).requests + 1⟩ := by
  induction tr with
  | nil => simp [recordUsage, getUsage, List.find?_cons, Usage.zero]
  | cons a tr ih =>
    obtain ⟨k, u⟩ := a
    by_cases h : k = t
    · subst h
      simp [recordUsage, getUsage, List.any_cons, List.find?_cons]
    · rw [recordUsage_cons_ne u tr i o h, getUsage_cons_ne u _ h,
        getUsage_cons_ne u tr h, ih]

/-- Unfolding of the implementation scan to the specification-side
description: the scan of a line list returns the extraction of the first
event payload (in scan order) whose extraction is non-zero, else
`(0, 0)`. -/
lemma sseScanRev_eq_find (decode : JsonDecoder) (provider : String) (ls : List String) :
    sseScanRev decode provider ls =
      match (ls.filterMap eventPayload).find?
          (fun p => nzPair (extractUsage decode p provider)) with
      | some p => extractUsage decode p provider
      | none => (0, 0) := by
  induction ls with
  | nil => rfl
  | cons l rest ih =>
    by_cases h1 : goHasPrefix (goTrimSpace l) "data: "
    · by_cases h2 : goDrop (goTrimSpace l) 6 = "[DONE]"
      · simp [sseScanRev, eventPayload, h1, h2, List.filterMap_cons, ih]
      · by_cases h3 : nzPair (extractUsage decode (goDrop (goTrimSpace l) 6) provider)
        · simp [sseScanRev, eventPayload, h1, h2, h3, List.filterMap_cons, List.find?]
        · simp [sseScanRev, eventPayload, h1, h2, h3, List.filterMap_cons, List.find?, ih]
    · simp [sseScanRev, eventPayload, h1, List.filterMap_cons, ih]

/-- Lines the scan skips — lines without the event-data prefix after
trimming, and sentinel frames — can be removed from the line list
without changing the scan's result. -/
lemma sseScanRev_skip (decode : JsonDecoder) (provider : String) (l : String)
    (h : goHasPrefix (goTrimSpace l) "data: " = false ∨ goDrop (goTrimSpace l) 6 = "[DONE]")
    (pre post : List String) :
    sseScanRev decode provider (pre ++ l :: post) = sseScanRev decode provider (pre ++ post) := by
  induction pre with
  | nil =>
    rcases h with h | h
    · simp [sseScanRev, h]
    · by_cases h1 : goHasPrefix (goTrimSpace l) "data: "
      · simp [sseScanRev, h1, h]
      · simp [sseScanRev, h1]
  | cons a pre ih =>
    simp only [List.cons_append]
    by_cases ha1 : goHasPrefix (goTrimSpace a) "data: "
    · by_cases ha2 : goDrop (goTrimSpace a) 6 = "[DONE]"
      · simp [sseScanRev, ha1, ha2, ih]
      · by_cases ha3 : nzPair (extractUsage decode (goDrop (goTrimSpace a) 6) provider)
        · simp [sseScanRev, ha1, ha2, ha3]
        · simp [sseScanRev, ha1, ha2, ha3, ih]
    · simp [sseScanRev, ha1, ih]

/-- The scan never applies the decoder to the sentinel payload: two
decoders agreeing everywhere except possibly at `"[DONE]"` scan
identically. -/
lemma sseScanRev_decoder_agree (decode₁ decode₂ : JsonDecoder) (provider : String)
    (h : ∀ s, s ≠ "[DONE]" → decode₁ s = decode₂ s) (ls : List String) :
    sseScanRev decode₁ provider ls = sseScanRev decode₂ provider ls := by
  induction ls with
  | nil => rfl
  | cons l rest ih =>
    by_cases h1 : goHasPrefix (goTrimSpace l) "data: "
    · by_cases h2 : goDrop (goTrimSpace l) 6 = "[DONE]"
      · simp [sseScanRev, h1, h2, ih]
      · have he : extractUsage decode₁ (goDrop (goTrimSpace l) 6) provider
            = extractUsage decode₂ (goDrop (goTrimSpace l) 6) provider := by
          unfold extractUsage
          rw [h _ h2]
        simp [sseScanRev, h1, h2, he, ih]
    · simp [sseScanRev, h1, ih]

/-! ## Claim theorems -/

/-- C8: for every store state and every token — registered or not —
`Revoke` succeeds without error; after a revoke, a lookup of that token
fails with not-found; and revoking the same token twice yields the same
store state as revoking it once. -/
theorem revoke_succeeds_clears_lookup_and_is_idempotent (m : MemoryStore) (t : String) :
    (∃ m', revokeSession m t = .ok m')
    ∧ (∀ m', revokeSession m t = .ok m' →
        lookupSession m' t = .error ("session not found: " ++ t))
    ∧ (∀ m', revokeSession m t = .ok m' → revokeSession m' t = .ok m') := by
  refine ⟨⟨m.filter (fun p => p.1 != t), rfl⟩, ?_, ?_⟩
  · intro m' hm'
    simp only [revokeSession, Except.ok.injEq] at hm'
    subst hm'
    unfold lookupSession
    rw [find?_filter_key_eq_none]
  · intro m' hm'
    simp only [revokeSession, Except.ok.injEq] at hm'
    subst hm'
    simp [revokeSession, filter_idem]

/-- Witness for C8 at a concrete store: revoking the registered token
`"t1"` succeeds, empties the store, leaves lookup failing, and a second
revoke returns the same state. -/
theorem revoke_succeeds_clears_lookup_and_is_idempotent_witness :
    lookupSession ([] : MemoryStore) "t1" = .error ("session not found: " ++ "t1")
    ∧ revokeSession ([] : MemoryStore) "t1" = .ok ([] : MemoryStore) :=
  ⟨(revoke_succeeds_clears_lookup_and_is_idempotent [("t1", sampleSession)] "t1").2.1
      [] (by decide),
   (revoke_succeeds_clears_lookup_and_is_idempotent [("t1", sampleSession)] "t1").2.2
      [] (by decide)⟩

/-- C9: starting from a tracker holding the zero record for a token,
`N` record calls each adding `(i, o)` to that token yield final counters
of exactly `N·i` input tokens, `N·o` output tokens and `N` requests.
(Calls for one token are serialised by the tracker's mutex, and the `N`
calls are identical, so every interleaving is this sequence.) -/
theorem record_n_times_accumulates (t : String) (i o : Int) (n : Nat) (tr : UsageTracker)
    (h : getUsage tr t = Usage.zero) :
    getUsage ((fun x => recordUsage x t i o)^[n] tr) t = ⟨n * i, n * o, n⟩ := by
  induction n with
  | zero =>
    simpa [Usage.zero] using h
  | succ n ih =>
    rw [Function.iterate_succ_apply', getUsage_recordUsage_self, ih]
    simp only [Usage.mk.injEq]
    push_cast
    refine ⟨by ring, by ring, by ring⟩

/-- Witness for C9: two record calls of `(2, 3)` on an empty tracker
give counters `(4, 6)` and two requests. -/
theorem record_n_times_accumulates_witness :
    getUsage ((fun x => recordUsage x "t1" 2 3)^[2] ([] : UsageTracker)) "t1" = ⟨4, 6, 2⟩ := by
  have h := record_n_times_accumulates "t1" 2 3 2 [] (by decide)
  simpa using h

/-- C2: the list response exposes no session's real API key — two stores
whose entries agree after blanking every `APIKey` field produce
identical list responses. -/
theorem list_response_independent_of_api_keys (m₁ m₂ : MemoryStore)
    (h : m₁.map scrubEntry = m₂.map scrubEntry) :
    handleListSessions m₁ = handleListSessions m₂ := by
  have e : ∀ m : MemoryStore,
      handleListSessions m = (m.map scrubEntry).map (fun p => sessionInfoOf p.2) := by
    intro m
    simp only [handleListSessions, listSessions, List.map_map]
    rfl
  rw [e m₁, e m₂, h]

/-- Witness for C2 at two concrete one-session stores differing only in
the stored API key. -/
theorem list_response_independent_of_api_keys_witness :
    handleListSessions [("t1", sampleSession)] = handleListSessions [("t1", sampleSessionAltKey)] :=
  list_response_independent_of_api_keys
    [("t1", sampleSession)] [("t1", sampleSessionAltKey)] (by decide)

/-- C1: evaluation of the revoke handler at a concrete state refuting
the claim. With token `"t1"` registered and usage `(3, 5, 1)` recorded,
`handleRevokeSession` removes the session record and acknowledges with
200, but the usage tracker still returns the accumulated `(3, 5, 1)`
record — not the zero record the claim requires. The handler calls only
`store.Revoke`; `UsageTracker.Clear` is never called from it. -/
theorem revoke_handler_leaves_usage_counters :
    (handleRevokeSession ⟨[("t1", sampleSession)], recordUsage [] "t1" 3 5⟩ "t1").2
      = ⟨200, "\x7b\"status\":\"revoked\"\x7d"⟩
    ∧ lookupSession
        (handleRevokeSession ⟨[("t1", sampleSession)], recordUsage [] "t1" 3 5⟩ "t1").1.store
        "t1" = .error "session not found: t1"
    ∧ getUsage
        (handleRevokeSession ⟨[("t1", sampleSession)], recordUsage [] "t1" 3 5⟩ "t1").1.usage
        "t1" = ⟨3, 5, 1⟩
    ∧ getUsage
        (handleRevokeSession ⟨[("t1", sampleSession)], recordUsage [] "t1" 3 5⟩ "t1").1.usage
        "t1" ≠ Usage.zero := by
  refine ⟨by decide, by decide, by decide, by decide⟩

/-- C3: evaluation of token extraction at a concrete request refuting
the claim. With `"t1"` registered and the `x-api-key` header carrying
the conventional value `"session-t1"`, `extractToken` returns the value
as-is — the `"session-"` prefix is not stripped — so the registry lookup
runs against `"session-t1"`, fails, and the pipeline answers 401. -/
theorem token_prefix_not_stripped_before_lookup :
    extractToken ⟨"POST", "/v1/messages", "", "", "session-t1"⟩ = "session-t1"
    ∧ extractToken ⟨"POST", "/v1/messages", "", "", "session-t1"⟩ ≠ "t1"
    ∧ serveHTTP [("t1", sampleSession)] ⟨false, false⟩
        ⟨"POST", "/v1/messages", "", "", "session-t1"⟩
      = .errored 401 (errBody "invalid session token") := by
  refine ⟨by decide, by decide, by decide⟩

/-- C4 counterexample: for the known provider `"anthropic"` there is no
fallback to the prompt/completion scheme. A body decoding to a usage
block whose input/output fields are zero and whose prompt/completion
fields are `(5, 7)` extracts as `(0, 0)`, not the `(5, 7)` the claim's
fallback requires. -/
theorem extractUsage_no_fallback_for_anthropic :
    extractUsage (fun _ => some ⟨0, 0, 5, 7⟩) "body" ProviderAnthropic = (0, 0)
    ∧ extractUsage (fun _ => some ⟨0, 0, 5, 7⟩) "body" ProviderAnthropic ≠ (5, 7) := by
  refine ⟨by decide, by decide⟩

/-- C4 as amended: for `"openai"`, `extractUsage` prefers the
prompt/completion fields and falls back to the input/output fields
exactly when neither preferred field is positive; for `"anthropic"` it
returns the input/output fields unconditionally, with no fallback; for
every other provider (including `"ollama"`) it returns the input/output
fields when the input field is positive and otherwise falls back to the
prompt/completion fields. -/
theorem extractUsage_selection_policy (decode : JsonDecoder) (body : String)
    (u : usageBlock) (h : decode body = some u) :
    (extractUsage decode body ProviderAnthropic = (u.inputTokens, u.outputTokens))
    ∧ (0 < u.promptTokens ∨ 0 < u.completionTokens →
        extractUsage decode body ProviderOpenAI = (u.promptTokens, u.completionTokens))
    ∧ (u.promptTokens ≤ 0 → u.completionTokens ≤ 0 →
        extractUsage decode body ProviderOpenAI = (u.inputTokens, u.outputTokens))
    ∧ (∀ p, p ≠ ProviderAnthropic → p ≠ ProviderOpenAI →
        (0 < u.inputTokens → extractUsage decode body p = (u.inputTokens, u.outputTokens))
        ∧ (u.inputTokens ≤ 0 →
            extractUsage decode body p = (u.promptTokens, u.completionTokens))) := by
  refine ⟨?_, ?_, ?_, ?_⟩
  · simp [extractUsage, h]
  · intro hp
    have : ProviderOpenAI ≠ ProviderAnthropic := by decide
    simp [extractUsage, h, this, hp]
  · intro hp hc
    have hne : ProviderOpenAI ≠ ProviderAnthropic := by decide
    have : ¬ (0 < u.promptTokens ∨ 0 < u.completionTokens) := by omega
    simp [extractUsage, h, hne, this]
  · intro p hpa hpo
    constructor
    · intro hi
      simp [extractUsage, h, hpa, hpo, hi]
    · intro hi
      have : ¬ 0 < u.inputTokens := by omega
      simp [extractUsage, h, hpa, hpo, this]

/-- Witness for C4's amended selection policy at `sampleDecoder`, which
decodes every body to input/output `(1, 2)` and prompt/completion
`(5, 7)`: anthropic reads `(1, 2)`, openai prefers `(5, 7)`, and the
unknown provider `"ollama"` reads `(1, 2)` since the input field is
positive. -/
theorem extractUsage_selection_policy_witness :
    extractUsage sampleDecoder "b" ProviderAnthropic = (1, 2)
    ∧ extractUsage sampleDecoder "b" ProviderOpenAI = (5, 7)
    ∧ extractUsage sampleDecoder "b" ProviderOllama = (1, 2) :=
  ⟨(extractUsage_selection_policy sampleDecoder "b" ⟨1, 2, 5, 7⟩ rfl).1,
   (extractUsage_selection_policy sampleDecoder "b" ⟨1, 2, 5, 7⟩ rfl).2.1
     (Or.inl (by decide)),
   ((extractUsage_selection_policy sampleDecoder "b" ⟨1, 2, 5, 7⟩ rfl).2.2.2
     ProviderOllama (by decide) (by decide)).1 (by decide)⟩

/-- C5 counterexample: a metering step whose extracted delta is `(0, 0)`
records nothing. With a decoder that fails on every body (a non-JSON
response), the metering tail leaves the tracker untouched and the
request counter stays at `0` — the claim requires it to become `1`. -/
theorem zero_delta_not_recorded :
    meterResponse (fun _ => none) false "not-json" ProviderAnthropic "t1" []
      = ([] : UsageTracker)
    ∧ (getUsage (meterResponse (fun _ => none) false "not-json" ProviderAnthropic "t1" [])
        "t1").requests = 0 := by
  refine ⟨by decide, by decide⟩

/-- C5 as amended: the metering tail records the extracted delta only
when one of its components is positive — a `(0, 0)` delta leaves the
tracker unchanged and does not increment the request counter — and when
it does record, the single record call adds both deltas and increments
the request counter by exactly one. -/
theorem metering_records_only_positive_deltas (decode : JsonDecoder) (streaming : Bool)
    (captured provider token : String) (tr : UsageTracker) :
    (nzPair (if streaming then extractUsageFromSSE decode captured provider
             else extractUsage decode captured provider) = false →
      meterResponse decode streaming captured provider token tr = tr)
    ∧ (nzPair (if streaming then extractUsageFromSSE decode captured provider
               else extractUsage decode captured provider) = true →
      getUsage (meterResponse decode streaming captured provider token tr) token =
        ⟨(getUsage tr token).inputTokens
            + (if streaming then extractUsageFromSSE decode captured provider
               else extractUsage decode captured provider).1,
          (getUsage tr token).outputTokens
            + (if streaming then extractUsageFromSSE decode captured provider
               else extractUsage decode captured provider).2,
          (getUsage tr token).requests + 1⟩) := by
  cases streaming
  · refine ⟨fun hz => ?_, fun hz => ?_⟩
    · have hz' : nzPair (extractUsage decode captured provider) = false := by simpa using hz
      simp [meterResponse, hz']
    · have hz' : nzPair (extractUsage decode captured provider) = true := by simpa using hz
      simp [meterResponse, hz', getUsage_recordUsage_self]
  · refine ⟨fun hz => ?_, fun hz => ?_⟩
    · have hz' : nzPair (extractUsageFromSSE decode captured provider) = false := by
        simpa using hz
      simp [meterResponse, hz']
    · have hz' : nzPair (extractUsageFromSSE decode captured provider) = true := by
        simpa using hz
      simp [meterResponse, hz', getUsage_recordUsage_self]

/-- Witness for C5's amended statement: a positive extracted delta
`(1, 2)` on the non-streaming path is recorded once, yielding counters
`(1, 2)` and one request on an empty tracker. -/
theorem metering_records_only_positive_deltas_witness :
    getUsage (meterResponse sampleDecoder false "b" ProviderAnthropic "t1" []) "t1"
      = ⟨0 + 1, 0 + 2, 0 + 1⟩ :=
  (metering_records_only_positive_deltas sampleDecoder false "b" ProviderAnthropic
    "t1" []).2 (by decide)

/-- C6: the streamed-usage extractor equals its specification — it
scans the event-framed lines from the end of the stream backward and
returns the usage pair of the first (closest-to-end) event payload whose
extraction is non-zero, and `(0, 0)` when no payload yields a non-zero
pair. -/
theorem sse_extractor_returns_last_nonzero_frame (decode : JsonDecoder) (data provider : String) :
    extractUsageFromSSE decode data provider = sseSpecScan decode data provider := by
  unfold extractUsageFromSSE sseSpecScan
  exact sseScanRev_eq_find decode provider (goSplitLines data).reverse

/-- C10: the scan behind `extractUsageFromSSE` considers only lines
whose trimmed form begins with `"data: "` (any other line can be removed
without changing the result), it skips sentinel frames the same way, and
it never parses the `"[DONE]"` payload — the result is independent of
what the decoder would return on it. -/
theorem sse_extractor_data_lines_only_and_skips_sentinel (decode : JsonDecoder)
    (provider : String) :
    (∀ pre post l, goHasPrefix (goTrimSpace l) "data: " = false →
      sseScanRev decode provider (pre ++ l :: post) = sseScanRev decode provider (pre ++ post))
    ∧ (∀ pre post l, goTrimSpace l = "data: [DONE]" →
      sseScanRev decode provider (pre ++ l :: post) = sseScanRev decode provider (pre ++ post))
    ∧ (∀ decode₂ data, (∀ s, s ≠ "[DONE]" → decode s = decode₂ s) →
      extractUsageFromSSE decode data provider = extractUsageFromSSE decode₂ data provider) := by
  refine ⟨?_, ?_, ?_⟩
  · intro pre post l h
    exact sseScanRev_skip decode provider l (Or.inl h) pre post
  · intro pre post l h
    refine sseScanRev_skip decode provider l (Or.inr ?_) pre post
    rw [h]
    decide
  · intro decode₂ data h
    unfold extractUsageFromSSE
    exact sseScanRev_decoder_agree decode decode₂ provider h (goSplitLines data).reverse

/-- Witness for C10 at concrete streams: a comment line is ignored, a
sentinel frame is skipped, and swapping the decoder's value at
`"[DONE]"` leaves the result unchanged. -/
theorem sse_extractor_data_lines_only_and_skips_sentinel_witness :
    sseScanRev sampleDecoder ProviderAnthropic (["event: x"] ++ ["data: u"])
      = sseScanRev sampleDecoder ProviderAnthropic ([] ++ ["data: u"])
    ∧ sseScanRev sampleDecoder ProviderAnthropic (["data: [DONE]"] ++ ["data: u"])
      = sseScanRev sampleDecoder ProviderAnthropic ([] ++ ["data: u"])
    ∧ extractUsageFromSSE sampleDecoder "data: u\ndata: [DONE]" ProviderAnthropic
      = extractUsageFromSSE (fun _ => some ⟨1, 2, 5, 7⟩) "data: u\ndata: [DONE]"
          ProviderAnthropic :=
  ⟨(sse_extractor_data_lines_only_and_skips_sentinel sampleDecoder ProviderAnthropic).1
      [] ["data: u"] "event: x" (by decide),
   (sse_extractor_data_lines_only_and_skips_sentinel sampleDecoder ProviderAnthropic).2.1
      [] ["data: u"] "data: [DONE]" (by decide),
   (sse_extractor_data_lines_only_and_skips_sentinel sampleDecoder ProviderAnthropic).2.2
      (fun _ => some ⟨1, 2, 5, 7⟩) "data: u\ndata: [DONE]" (fun _ _ => rfl)⟩

/-- C7: the pipeline fails with exactly the status of its error class —
401 when no usable credential header is present, 401 when the session
lookup fails, 400 when neither an override nor a provider default
upstream URL resolves, 500 when outbound request construction fails, 502
when the upstream call fails at the transport level — and every error
body it produces is a JSON object with a single `error` string field. -/
theorem pipeline_error_taxonomy (store : MemoryStore) (env : UpstreamEnv) (r : Request) :
    (extractToken r = "" →
      serveHTTP store env r = .errored 401 (errBody "missing or invalid authorization header"))
    ∧ (∀ e, extractToken r ≠ "" → lookupSession store (extractToken r) = .error e →
      serveHTTP store env r = .errored 401 (errBody "invalid session token"))
    ∧ (∀ sess, extractToken r ≠ "" → lookupSession store (extractToken r) = .ok sess →
      (if sess.upstreamURL = "" then DefaultUpstream sess.provider else sess.upstreamURL) = "" →
      serveHTTP store env r = .errored 400 (errBody "unknown provider"))
    ∧ (∀ sess, extractToken r ≠ "" → lookupSession store (extractToken r) = .ok sess →
      (if sess.upstreamURL = "" then DefaultUpstream sess.provider else sess.upstreamURL) ≠ "" →
      env.buildFails = true →
      serveHTTP store env r = .errored 500 (errBody "internal error"))
    ∧ (∀ sess, extractToken r ≠ "" → lookupSession store (extractToken r) = .ok sess →
      (if sess.upstreamURL = "" then DefaultUpstream sess.provider else sess.upstreamURL) ≠ "" →
      env.buildFails = false → env.transportFails = true →
      serveHTTP store env r = .errored 502 (errBody "upstream request failed"))
    ∧ (∀ st b, serveHTTP store env r = .errored st b → ∃ msg, b = errBody msg) := by
  refine ⟨?_, ?_, ?_, ?_, ?_, ?_⟩
  · intro h
    simp [serveHTTP, h]
  · intro e hne hl
    simp [serveHTTP, hne, hl]
  · intro sess hne hl hu
    simp [serveHTTP, hne, hl, hu]
  · intro sess hne hl hu hb
    simp [serveHTTP, hne, hl, hu, hb]
  · intro sess hne hl hu hb ht
    simp [serveHTTP, hne, hl, hu, hb, ht]
  · intro st b h
    by_cases h1 : extractToken r = ""
    · simp [serveHTTP, h1] at h
      exact ⟨"missing or invalid authorization header", h.2.symm⟩
    · cases hl : lookupSession store (extractToken r) with
      | error e =>
        simp [serveHTTP, h1, hl] at h
        exact ⟨"invalid session token", h.2.symm⟩
      | ok sess =>
        by_cases hu : (if sess.upstreamURL = ""
            then DefaultUpstream sess.provider else sess.upstreamURL) = ""
        · simp [serveHTTP, h1, hl, hu] at h
          exact ⟨"unknown provider", h.2.symm⟩
        · by_cases hb : env.buildFails
          · simp [serveHTTP, h1, hl, hu, hb] at h
            exact ⟨"internal error", h.2.symm⟩
          · by_cases ht : env.transportFails
            · simp [serveHTTP, h1, hl, hu, hb, ht] at h
              exact ⟨"upstream request failed", h.2.symm⟩
            · simp [serveHTTP, h1, hl, hu, hb, ht] at h

/-- Witness for C7 at concrete requests and environments: one request
per error class, each producing exactly the enumerated status and
body. -/
theorem pipeline_error_taxonomy_witness :
    serveHTTP [] ⟨false, false⟩ ⟨"POST", "/p", "", "", ""⟩
      = .errored 401 (errBody "missing or invalid authorization header")
    ∧ serveHTTP [] ⟨false, false⟩ ⟨"POST", "/p", "", "", "session-t1"⟩
      = .errored 401 (errBody "invalid session token")
    ∧ serveHTTP [("t1", ⟨"t1", "mystery", "k", "", "sb1"⟩)] ⟨false, false⟩
        ⟨"POST", "/p", "", "Bearer t1", ""⟩
      = .errored 400 (errBody "unknown provider")
    ∧ serveHTTP [("t1", sampleSession)] ⟨true, false⟩ ⟨"POST", "/p", "", "Bearer t1", ""⟩
      = .errored 500 (errBody "internal error")
    ∧ serveHTTP [("t1", sampleSession)] ⟨false, true⟩ ⟨"POST", "/p", "", "Bearer t1", ""⟩
      = .errored 502 (errBody "upstream request failed") :=
  ⟨(pipeline_error_taxonomy [] ⟨false, false⟩ ⟨"POST", "/p", "", "", ""⟩).1 (by decide),
   (pipeline_error_taxonomy [] ⟨false, false⟩ ⟨"POST", "/p", "", "", "session-t1"⟩).2.1
      "session not found: session-t1" (by decide) (by decide),
   (pipeline_error_taxonomy [("t1", ⟨"t1", "mystery", "k", "", "sb1"⟩)] ⟨false, false⟩
      ⟨"POST", "/p", "", "Bearer t1", ""⟩).2.2.1
      ⟨"t1", "mystery", "k", "", "sb1"⟩ (by decide) (by decide) (by decide),
   (pipeline_error_taxonomy [("t1", sampleSession)] ⟨true, false⟩
      ⟨"POST", "/p", "", "Bearer t1", ""⟩).2.2.2.1
      sampleSession (by decide) (by decide) (by decide) rfl,
   (pipeline_error_taxonomy [("t1", sampleSession)] ⟨false, true⟩
      ⟨"POST", "/p", "", "Bearer t1", ""⟩).2.2.2.2.1
      sampleSession (by decide) (by decide) (by decide) rfl rfl⟩

end LLMProxy
